import Mathlib

/-!
Shallow embedding of `rbxmppnotification/xmpp.py` (Review Board XMPP
notification extension) and verification of its specification.

The embedding models:
- the data the module reads from the review system (users, groups,
  subscription profiles, review requests, reviews, replies);
- `get_users_review_request`, the audience resolver;
- `get_base_url`;
- Python `%`-style string formatting as used by the five message templates
  (including the arity check that raises `TypeError` when not all arguments
  are converted);
- the five notification entry points of `XmppClient`, with the extension
  settings as a partial map (a missing key raises `KeyError`, which in the
  source happens *outside* the `try` block of `send_xmpp_message`);
- `XmppHandler`, the per-session protocol event handler.

Exceptions are modelled with `Except PyError`; everything caught by the
`try ... except Exception` block of `send_xmpp_message` is absorbed into a
logged `DeliveryOutcome`.
-/

/-- A review-system user. `username` is the unique external handle used as
the messaging address (the local part of the recipient JID). -/
structure User where
  username : String
  first_name : String
  last_name : String
  is_active : Bool
deriving DecidableEq, Repr

/-- A review group; `users` are its members (`group.users` in the source). -/
structure ReviewGroup where
  users : List User
deriving DecidableEq, Repr

/-- A subscription record (`Profile` row reached via `starred_by`). -/
structure Profile where
  user : User
deriving DecidableEq, Repr

/-- The review-request aggregate, with exactly the fields and accessors the
module reads: `public`, `status`, `submitter`, `get_participants()`,
`target_people`, `target_groups`, `starred_by`, `summary`,
`get_display_id()` and `get_absolute_url()`. -/
structure ReviewRequest where
  public : Bool
  status : Char
  submitter : User
  participants : List User
  target_people : List User
  target_groups : List ReviewGroup
  starred_by : List Profile
  summary : String
  display_id : Int
  absolute_url : String
deriving DecidableEq, Repr

/-- A review; `send_review_published` reads `review.review_request`. -/
structure Review where
  review_request : ReviewRequest
deriving DecidableEq, Repr

/-- A reply; `send_reply_published` follows `reply.base_reply_to`
(the base review) and then its `review_request`. -/
structure Reply where
  base_reply_to : Review
deriving DecidableEq, Repr

/-- The site object consulted by `get_base_url`. -/
structure Site where
  domain : String
  site_domain_method : String
deriving DecidableEq, Repr

/-- `get_base_url`: `'%s://%s' % (domain_method, current_site.domain)`. -/
def get_base_url (site : Site) : String :=
  site.site_domain_method ++ "://" ++ site.domain

/-- `users.add(u)` on a Python set, modelled as a duplicate-free list in
insertion order: adding a member already present changes nothing. -/
def addUser (users : List User) (u : User) : List User :=
  if u ∈ users then users else users ++ [u]

/-- The body of `get_users_review_request`, generalized over the initial
value of the accumulating set (`users = set()` in the source corresponds to
`init = []`): union in all participants unfiltered, add the submitter iff
active, union in `target_people` filtered to active, union in every target
group's users filtered to active, and add each `starred_by` profile's user
iff active. -/
def resolveFromList (init : List User) (review_request : ReviewRequest) :
    List User :=
  let users := review_request.participants.foldl addUser init
  let users :=
    if review_request.submitter.is_active then
      addUser users review_request.submitter
    else users
  let users := (review_request.target_people.filter
      (fun u => u.is_active)).foldl addUser users
  let users := review_request.target_groups.foldl
      (fun s group =>
        (group.users.filter (fun u => u.is_active)).foldl addUser s)
      users
  let users := review_request.starred_by.foldl
      (fun s profile =>
        if profile.user.is_active then addUser s profile.user else s)
      users
  users

/-- `get_users_review_request`: the set of users interested in the review
request, starting from the empty set. -/
def get_users_review_request (review_request : ReviewRequest) : List User :=
  resolveFromList [] review_request

/-- `users.discard(user)`: remove the acting user from the resolved set;
a no-op when absent. -/
def discardUser (users : List User) (u : User) : List User :=
  users.filter (fun v => decide (v ≠ u))

/-- Kind of a Python `%` conversion used by the templates: `%s` or `%d`. -/
inductive ConvKind
  | s
  | d
deriving DecidableEq, Repr

/-- One piece of a Python `%`-format string: a literal chunk (with `%%`
already decoded to `%`) or a conversion specifier. -/
inductive FmtItem
  | lit (chunk : String)
  | conv (kind : ConvKind)
deriving DecidableEq, Repr

/-- One argument of the `%` operator. -/
inductive FmtArg
  | str (value : String)
  | int (value : Int)
deriving DecidableEq, Repr

/-- The Python exceptions the module can raise out of an entry point:
`KeyError` from a missing extension setting, and `TypeError` from the `%`
operator. -/
inductive PyError
  | keyError (key : String)
  | typeError
deriving DecidableEq, Repr

/-- Python `%`-style formatting: conversions consume arguments left to
right; leftover arguments raise `TypeError` (`not all arguments converted
during string formatting`), as does a missing or `%d`-incompatible
argument. -/
def pyFormat : List FmtItem → List FmtArg → Except PyError String
  | [], [] => .ok ""
  | [], _ :: _ => .error .typeError
  | .lit chunk :: items, args =>
      (pyFormat items args).map (fun tail => chunk ++ tail)
  | .conv _ :: _, [] => .error .typeError
  | .conv .s :: items, .str v :: args =>
      (pyFormat items args).map (fun tail => v ++ tail)
  | .conv .s :: items, .int n :: args =>
      (pyFormat items args).map (fun tail => toString n ++ tail)
  | .conv .d :: items, .int n :: args =>
      (pyFormat items args).map (fun tail => toString n ++ tail)
  | .conv .d :: _, .str _ :: _ => .error .typeError

/-- Template of `send_review_request_published`:
`"%s %s published review request #%d: \"%s\"\n%s%s"`. -/
def published_template : List FmtItem :=
  [.conv .s, .lit " ", .conv .s, .lit " published review request #",
   .conv .d, .lit ": \"", .conv .s, .lit "\"\n", .conv .s, .conv .s]

/-- Template of `send_review_request_reopened`:
`"%s %s reopened review request #%d: \"%s\"\n%s%s"`. -/
def reopened_template : List FmtItem :=
  [.conv .s, .lit " ", .conv .s, .lit " reopened review request #",
   .conv .d, .lit ": \"", .conv .s, .lit "\"\n", .conv .s, .conv .s]

/-- Template of `send_review_request_closed`:
`"%s %s closed review request #%d: \"%s\"\n%s%s"`. -/
def closed_template : List FmtItem :=
  [.conv .s, .lit " ", .conv .s, .lit " closed review request #",
   .conv .d, .lit ": \"", .conv .s, .lit "\"\n", .conv .s, .conv .s]

/-- Template of `send_review_published`:
`"%s %s reviewed request #%d: \"%s\"\n%s%s"`. -/
def reviewed_template : List FmtItem :=
  [.conv .s, .lit " ", .conv .s, .lit " reviewed request #",
   .conv .d, .lit ": \"", .conv .s, .lit "\"\n", .conv .s, .conv .s]

/-- Template of `send_reply_published`:
`"%s %s replied review request #%d: \"%s\"\n%%s%s"`. The `%%` decodes to a
literal `%`, so this template has only five conversions. -/
def reply_template : List FmtItem :=
  [.conv .s, .lit " ", .conv .s, .lit " replied review request #",
   .conv .d, .lit ": \"", .conv .s, .lit "\"\n%s", .conv .s]

/-- The argument tuple every entry point passes to `%`: first name, last
name, display id, summary, base URL, absolute URL (six arguments). -/
def message_args (user : User) (review_request : ReviewRequest)
    (site : Site) : List FmtArg :=
  [.str user.first_name, .str user.last_name, .int review_request.display_id,
   .str review_request.summary, .str (get_base_url site),
   .str review_request.absolute_url]

/-- The clean single-line body produced by the `published` template. -/
def published_message_text (user : User) (review_request : ReviewRequest)
    (site : Site) : String :=
  user.first_name ++ " " ++ user.last_name ++
    " published review request #" ++ toString review_request.display_id ++
    ": \"" ++ review_request.summary ++ "\"\n" ++ get_base_url site ++
    review_request.absolute_url

/-- The clean single-line body produced by the `reopened` template. -/
def reopened_message_text (user : User) (review_request : ReviewRequest)
    (site : Site) : String :=
  user.first_name ++ " " ++ user.last_name ++
    " reopened review request #" ++ toString review_request.display_id ++
    ": \"" ++ review_request.summary ++ "\"\n" ++ get_base_url site ++
    review_request.absolute_url

/-- The clean single-line body produced by the `closed` template. -/
def closed_message_text (user : User) (review_request : ReviewRequest)
    (site : Site) : String :=
  user.first_name ++ " " ++ user.last_name ++
    " closed review request #" ++ toString review_request.display_id ++
    ": \"" ++ review_request.summary ++ "\"\n" ++ get_base_url site ++
    review_request.absolute_url

/-- The clean single-line body produced by the `reviewed` template. -/
def reviewed_message_text (user : User) (review_request : ReviewRequest)
    (site : Site) : String :=
  user.first_name ++ " " ++ user.last_name ++
    " reviewed request #" ++ toString review_request.display_id ++
    ": \"" ++ review_request.summary ++ "\"\n" ++ get_base_url site ++
    review_request.absolute_url

/-- The extension settings, one `Option` per connection parameter; `none`
models a key missing from `self.extension.settings`. -/
structure Config where
  xmpp_host : Option String
  xmpp_port : Option Nat
  xmpp_sender_jid : Option String
  xmpp_sender_password : Option String
  xmpp_use_tls : Option Bool
deriving DecidableEq, Repr

/-- All five connection parameters are present. -/
def Config.complete (cfg : Config) : Bool :=
  cfg.xmpp_host.isSome && cfg.xmpp_port.isSome &&
    cfg.xmpp_sender_jid.isSome && cfg.xmpp_sender_password.isSome &&
    cfg.xmpp_use_tls.isSome

/-- A bare JID (local part and domain). -/
structure JID where
  localpart : String
  domain : String
deriving DecidableEq, Repr

/-- Split a character list at every occurrence of a separator. -/
def splitChar (sep : Char) : List Char → List (List Char)
  | [] => [[]]
  | c :: rest =>
      match splitChar sep rest with
      | [] => if c = sep then [[], []] else [[c]]
      | p :: ps => if c = sep then [] :: p :: ps else (c :: p) :: ps

/-- `JID(xmpp_sender_jid)`: split the configured sender address at `@`.
A string with more than one `@` is malformed (a `JIDError`, raised inside
the `try` block). -/
def parseJid (address : String) : Option JID :=
  match (splitChar '@' address.toList).map (fun cs => String.mk cs) with
  | [d] => some ⟨"", d⟩
  | [l, d] => some ⟨l, d⟩
  | _ => none

/-- Outcome of driving one transient session for one recipient: either the
session authorized and the message was sent, or the transport failed
(connection refused, SASL rejection, TLS failure, ...). -/
inductive TransportResult
  | success
  | failure (detail : String)
deriving DecidableEq, Repr

/-- What one call of `send_xmpp_message` observably did: delivered the body
to a JID, or logged an error swallowed by the `except Exception` clause. -/
inductive DeliveryOutcome
  | delivered (to_jid : JID) (body : String)
  | loggedError (detail : String)
deriving DecidableEq, Repr

/-- The body a recipient actually received, if any. -/
def DeliveryOutcome.body? : DeliveryOutcome → Option String
  | .delivered _ b => some b
  | .loggedError _ => none

/-- Events delivered to the per-session event handler. -/
inductive StreamEvent
  | authorized
  | disconnected
  | other (description : String)
deriving DecidableEq, Repr

/-- Observable protocol actions of the handler (`handle_all` only logs, so
it contributes no protocol action). -/
inductive StreamAction
  | sendMessage (to_jid : JID) (body : String)
  | disconnect
deriving DecidableEq, Repr

/-- Whether the handler asks the local event loop to keep running or to
quit (`QUIT`). -/
inductive LoopSignal
  | continueLoop
  | quitLoop
deriving DecidableEq, Repr

/-- The per-session event handler, holding the recipient JID and the body
(`XmppHandler.__init__`). -/
structure XmppHandler where
  target_jid : JID
  message : String
deriving DecidableEq, Repr

/-- Event dispatch of `XmppHandler`: on `AuthorizedEvent` build one
message to `target_jid` with `message`, send it, request disconnection; on
`DisconnectedEvent` return `QUIT`; any other event is only logged. -/
def XmppHandler.step (handler : XmppHandler) :
    StreamEvent → List StreamAction × LoopSignal
  | .authorized =>
      ([.sendMessage handler.target_jid handler.message, .disconnect],
       .continueLoop)
  | .disconnected => ([], .quitLoop)
  | .other _ => ([], .continueLoop)

/-- The local blocking event loop (`client.run()`): feed stream events to
the handler until it signals `QUIT` or the stream ends. -/
def runHandler (handler : XmppHandler) : List StreamEvent → List StreamAction
  | [] => []
  | event :: events =>
      match handler.step event with
      | (acts, .quitLoop) => acts
      | (acts, .continueLoop) => acts ++ runHandler handler events

/-- `send_xmpp_message`: read the five settings (each missing key raises
`KeyError` — these reads are *outside* the `try` block), then inside
`try ... except Exception` parse the sender JID, build the receiver JID
from the recipient handle and the sender domain, and drive one session;
every exception inside the block is logged and swallowed. -/
def send_xmpp_message (cfg : Config) (transport : User → TransportResult)
    (receiver : User) (message : String) : Except PyError DeliveryOutcome :=
  match cfg.xmpp_host, cfg.xmpp_port, cfg.xmpp_sender_jid,
      cfg.xmpp_sender_password, cfg.xmpp_use_tls with
  | none, _, _, _, _ => .error (.keyError "xmpp_host")
  | some _, none, _, _, _ => .error (.keyError "xmpp_port")
  | some _, some _, none, _, _ => .error (.keyError "xmpp_sender_jid")
  | some _, some _, some _, none, _ =>
      .error (.keyError "xmpp_sender_password")
  | some _, some _, some _, some _, none => .error (.keyError "xmpp_use_tls")
  | some _, some _, some sender_address, some _, some _ =>
      .ok (match parseJid sender_address with
           | none => .loggedError "JIDError"
           | some xmpp_sender_jid =>
               match transport receiver with
               | .success =>
                   .delivered ⟨receiver.username, xmpp_sender_jid.domain⟩
                     message
               | .failure detail => .loggedError detail)

/-- The fan-out loop `for u in users: self.send_xmpp_message(u, message)`:
each call's exception (only `KeyError` can escape `send_xmpp_message`)
aborts the rest of the loop, exactly as in Python. -/
def fanout (cfg : Config) (transport : User → TransportResult)
    (recipients : List User) (message : String) :
    Except PyError (List (User × DeliveryOutcome)) :=
  match recipients with
  | [] => .ok []
  | u :: rest =>
      match send_xmpp_message cfg transport u message with
      | .error e => .error e
      | .ok outcome =>
          match fanout cfg transport rest message with
          | .error e => .error e
          | .ok outcomes => .ok ((u, outcome) :: outcomes)

/-- `XmppClient.send_review_request_published`: gate on `public`, format
the message, resolve the audience, discard the actor, fan out. -/
def send_review_request_published (cfg : Config)
    (transport : User → TransportResult) (site : Site) (user : User)
    (review_request : ReviewRequest) (_changedesc : String) :
    Except PyError (List (User × DeliveryOutcome)) :=
  if !review_request.public then .ok []
  else
    match pyFormat published_template (message_args user review_request site)
        with
    | .error e => .error e
    | .ok message =>
        fanout cfg transport
          (discardUser (get_users_review_request review_request) user)
          message

/-- `XmppClient.send_review_request_reopened`. -/
def send_review_request_reopened (cfg : Config)
    (transport : User → TransportResult) (site : Site) (user : User)
    (review_request : ReviewRequest) :
    Except PyError (List (User × DeliveryOutcome)) :=
  if !review_request.public then .ok []
  else
    match pyFormat reopened_template (message_args user review_request site)
        with
    | .error e => .error e
    | .ok message =>
        fanout cfg transport
          (discardUser (get_users_review_request review_request) user)
          message

/-- `XmppClient.send_review_request_closed`: gate on `status == 'D'` only
(the "discarded" rule is relaxed here: `public` is not checked). -/
def send_review_request_closed (cfg : Config)
    (transport : User → TransportResult) (site : Site) (user : User)
    (review_request : ReviewRequest) :
    Except PyError (List (User × DeliveryOutcome)) :=
  if review_request.status = 'D' then .ok []
  else
    match pyFormat closed_template (message_args user review_request site)
        with
    | .error e => .error e
    | .ok message =>
        fanout cfg transport
          (discardUser (get_users_review_request review_request) user)
          message

/-- `XmppClient.send_review_published`: derives the request from the
review object, then the same shape. -/
def send_review_published (cfg : Config)
    (transport : User → TransportResult) (site : Site) (user : User)
    (review : Review) : Except PyError (List (User × DeliveryOutcome)) :=
  let review_request := review.review_request
  if !review_request.public then .ok []
  else
    match pyFormat reviewed_template (message_args user review_request site)
        with
    | .error e => .error e
    | .ok message =>
        fanout cfg transport
          (discardUser (get_users_review_request review_request) user)
          message

/-- `XmppClient.send_reply_published`: derives the request through
`reply.base_reply_to.review_request`, then the same shape (its template's
`TypeError` propagates, as there is no `try` in the entry point). -/
def send_reply_published (cfg : Config)
    (transport : User → TransportResult) (site : Site) (user : User)
    (reply : Reply) : Except PyError (List (User × DeliveryOutcome)) :=
  let review_request := reply.base_reply_to.review_request
  if !review_request.public then .ok []
  else
    match pyFormat reply_template (message_args user review_request site) with
    | .error e => .error e
    | .ok message =>
        fanout cfg transport
          (discardUser (get_users_review_request review_request) user)
          message

/-- Concrete active user used in witnesses. -/
def alice : User := ⟨"alice", "Alice", "Smith", true⟩

/-- Concrete active user used in witnesses. -/
def bob : User := ⟨"bob", "Bob", "Jones", true⟩

/-- Concrete inactive user used in witnesses. -/
def carol : User := ⟨"carol", "Carol", "Reed", false⟩

/-- Concrete site used in witnesses. -/
def site0 : Site := ⟨"reviews.example.com", "https"⟩

/-- A configuration with all five settings present. -/
def cfgFull : Config :=
  ⟨some "xmpp.example.com", some 5222, some "notifier@xmpp.example.com",
   some "secret", some true⟩

/-- A configuration missing `xmpp_host`. -/
def cfgNoHost : Config :=
  ⟨none, some 5222, some "notifier@xmpp.example.com", some "secret",
   some true⟩

/-- A transport for which every session succeeds. -/
def trOk : User → TransportResult := fun _ => .success

/-- A transport for which bob's session fails authentication and every
other session succeeds. -/
def trFailBob : User → TransportResult := fun u =>
  if u.username = "bob" then .failure "SASL authentication failed"
  else .success

/-- A public request with every source collection empty and an inactive
submitter. -/
def rEmpty : ReviewRequest :=
  ⟨true, 'P', carol, [], [], [], [], "Tidy docs", 3, "/r/3/"⟩

/-- A public request whose only participant is the inactive user carol. -/
def rC3 : ReviewRequest :=
  ⟨true, 'P', alice, [carol], [], [], [], "Handle timeouts", 7, "/r/7/"⟩

/-- A public pending request submitted by bob, with bob targeted. -/
def rPub : ReviewRequest :=
  ⟨true, 'P', bob, [], [bob], [], [], "Fix the crash", 42, "/r/42/"⟩

/-- A non-public request. -/
def rPriv : ReviewRequest :=
  ⟨false, 'P', bob, [], [bob], [], [], "Private draft", 8, "/r/8/"⟩

/-- A discarded request. -/
def rDisc : ReviewRequest :=
  ⟨true, 'D', bob, [], [bob], [], [], "Abandoned", 5, "/r/5/"⟩

/-- A review of the non-public request. -/
def rvPriv : Review := ⟨rPriv⟩

/-- A reply chained to a review of the non-public request. -/
def rpPriv : Reply := ⟨⟨rPriv⟩⟩

/-- A reply chained to a review of the public request. -/
def rpPub : Reply := ⟨⟨rPub⟩⟩

/-- A group containing alice and bob. -/
def gAB : ReviewGroup := ⟨[alice, bob]⟩

/-- The same group with its member list reversed. -/
def gBA : ReviewGroup := ⟨[bob, alice]⟩

/-- A group containing only carol. -/
def gC : ReviewGroup := ⟨[carol]⟩

/-- A request with several sources, in one iteration order. -/
def rPermA : ReviewRequest :=
  ⟨true, 'P', alice, [alice, bob], [bob, carol], [gAB, gC],
   [⟨bob⟩, ⟨carol⟩], "Permutation test", 9, "/r/9/"⟩

/-- The same request with every collection permuted (including the member
list of the group). -/
def rPermB : ReviewRequest :=
  ⟨true, 'P', alice, [bob, alice], [carol, bob], [gC, gBA],
   [⟨carol⟩, ⟨bob⟩], "Permutation test", 9, "/r/9/"⟩

/-- Membership after one `addUser`. -/
lemma mem_addUser (l : List User) (x u : User) :
    u ∈ addUser l x ↔ u ∈ l ∨ u = x := by
  unfold addUser
  by_cases hx : x ∈ l
  · rw [if_pos hx]
    constructor
    · exact Or.inl
    · rintro (h | rfl)
      · exact h
      · exact hx
  · rw [if_neg hx]
    simp [List.mem_append]

/-- Membership in a fold that adds every list element. -/
lemma mem_foldl_addUser (l : List User) (init : List User) (u : User) :
    u ∈ l.foldl addUser init ↔ u ∈ init ∨ u ∈ l := by
  induction l generalizing init with
  | nil => simp
  | cons x xs ih =>
      rw [List.foldl_cons, ih, mem_addUser]
      simp [List.mem_cons]
      tauto

/-- Membership in the fold over target groups. -/
lemma mem_foldl_groups (l : List ReviewGroup) (init : List User) (u : User) :
    u ∈ l.foldl
        (fun s group =>
          (group.users.filter (fun v => v.is_active)).foldl addUser s) init
      ↔ u ∈ init ∨ ∃ g ∈ l, u ∈ g.users ∧ u.is_active = true := by
  induction l generalizing init with
  | nil => simp
  | cons g gs ih =>
      rw [List.foldl_cons, ih, mem_foldl_addUser]
      simp only [List.mem_filter, List.mem_cons]
      constructor
      · rintro ((h | ⟨h1, h2⟩) | ⟨q, hq, h1, h2⟩)
        · exact Or.inl h
        · exact Or.inr ⟨g, Or.inl rfl, h1, h2⟩
        · exact Or.inr ⟨q, Or.inr hq, h1, h2⟩
      · rintro (h | ⟨q, hq | hq, h1, h2⟩)
        · exact Or.inl (Or.inl h)
        · exact Or.inl (Or.inr ⟨hq ▸ h1, h2⟩)
        · exact Or.inr ⟨q, hq, h1, h2⟩

/-- Membership in the fold over `starred_by` profiles. -/
lemma mem_foldl_starred (l : List Profile) (init : List User) (u : User) :
    u ∈ l.foldl
        (fun s profile =>
          if profile.user.is_active then addUser s profile.user else s) init
      ↔ u ∈ init ∨ ∃ p ∈ l, p.user = u ∧ u.is_active = true := by
  induction l generalizing init with
  | nil => simp
  | cons p ps ih =>
      rw [List.foldl_cons, ih]
      by_cases hp : p.user.is_active = true
      · rw [if_pos hp, mem_addUser]
        simp only [List.mem_cons]
        constructor
        · rintro ((h | h) | ⟨q, hq, h1, h2⟩)
          · exact Or.inl h
          · exact Or.inr ⟨p, Or.inl rfl, h.symm, by rw [h]; exact hp⟩
          · exact Or.inr ⟨q, Or.inr hq, h1, h2⟩
        · rintro (h | ⟨q, hq | hq, h1, h2⟩)
          · exact Or.inl (Or.inl h)
          · subst hq; exact Or.inl (Or.inr h1.symm)
          · exact Or.inr ⟨q, hq, h1, h2⟩
      · rw [if_neg hp]
        simp only [List.mem_cons]
        constructor
        · rintro (h | ⟨q, hq, h1, h2⟩)
          · exact Or.inl h
          · exact Or.inr ⟨q, Or.inr hq, h1, h2⟩
        · rintro (h | ⟨q, hq | hq, h1, h2⟩)
          · exact Or.inl h
          · subst hq; exact absurd (h1 ▸ h2) hp
          · exact Or.inr ⟨q, hq, h1, h2⟩

/-- Full membership characterization of the generalized resolver. -/
lemma mem_resolveFromList (init : List User) (r : ReviewRequest) (u : User) :
    u ∈ resolveFromList init r ↔
      u ∈ init ∨
      u ∈ r.participants ∨
      (u = r.submitter ∧ r.submitter.is_active = true) ∨
      (u ∈ r.target_people ∧ u.is_active = true) ∨
      (∃ g ∈ r.target_groups, u ∈ g.users ∧ u.is_active = true) ∨
      (∃ p ∈ r.starred_by, p.user = u ∧ u.is_active = true) := by
  simp only [resolveFromList]
  by_cases hs : r.submitter.is_active = true
  · rw [if_pos hs]
    rw [mem_foldl_starred, mem_foldl_groups, mem_foldl_addUser,
      mem_addUser, mem_foldl_addUser, List.mem_filter]
    constructor
    · rintro (((((h | h) | h) | h) | h) | h)
      · exact Or.inl h
      · exact Or.inr (Or.inl h)
      · exact Or.inr (Or.inr (Or.inl ⟨h, hs⟩))
      · exact Or.inr (Or.inr (Or.inr (Or.inl h)))
      · exact Or.inr (Or.inr (Or.inr (Or.inr (Or.inl h))))
      · exact Or.inr (Or.inr (Or.inr (Or.inr (Or.inr h))))
    · rintro (h | h | h | h | h | h)
      · exact Or.inl (Or.inl (Or.inl (Or.inl (Or.inl h))))
      · exact Or.inl (Or.inl (Or.inl (Or.inl (Or.inr h))))
      · exact Or.inl (Or.inl (Or.inl (Or.inr h.1)))
      · exact Or.inl (Or.inl (Or.inr h))
      · exact Or.inl (Or.inr h)
      · exact Or.inr h
  · rw [if_neg hs]
    rw [mem_foldl_starred, mem_foldl_groups, mem_foldl_addUser,
      mem_foldl_addUser, List.mem_filter]
    constructor
    · rintro ((((h | h) | h) | h) | h)
      · exact Or.inl h
      · exact Or.inr (Or.inl h)
      · exact Or.inr (Or.inr (Or.inr (Or.inl h)))
      · exact Or.inr (Or.inr (Or.inr (Or.inr (Or.inl h))))
      · exact Or.inr (Or.inr (Or.inr (Or.inr (Or.inr h))))
    · rintro (h | h | h | h | h | h)
      · exact Or.inl (Or.inl (Or.inl (Or.inl h)))
      · exact Or.inl (Or.inl (Or.inl (Or.inr h)))
      · exact absurd h.2 hs
      · exact Or.inl (Or.inl (Or.inr h))
      · exact Or.inl (Or.inr h)
      · exact Or.inr h

/-- Membership characterization of `get_users_review_request`. -/
lemma mem_get_users (r : ReviewRequest) (u : User) :
    u ∈ get_users_review_request r ↔
      u ∈ r.participants ∨
      (u = r.submitter ∧ r.submitter.is_active = true) ∨
      (u ∈ r.target_people ∧ u.is_active = true) ∨
      (∃ g ∈ r.target_groups, u ∈ g.users ∧ u.is_active = true) ∨
      (∃ p ∈ r.starred_by, p.user = u ∧ u.is_active = true) := by
  rw [get_users_review_request, mem_resolveFromList]
  simp

/-- Membership after discarding the actor. -/
lemma mem_discardUser (l : List User) (x u : User) :
    u ∈ discardUser l x ↔ u ∈ l ∧ u ≠ x := by
  simp [discardUser, List.mem_filter]

/-- Discarding an absent user is a no-op. -/
lemma discardUser_of_not_mem (l : List User) (x : User) (h : x ∉ l) :
    discardUser l x = l := by
  unfold discardUser
  apply List.filter_eq_self.mpr
  intro a ha
  simp only [decide_eq_true_eq]
  rintro rfl
  exact h ha

/-- Discarding is idempotent. -/
lemma discardUser_idem (l : List User) (x : User) :
    discardUser (discardUser l x) x = discardUser l x := by
  unfold discardUser
  apply List.filter_eq_self.mpr
  intro a ha
  exact (List.mem_filter.mp ha).2

/-- The three possible shapes of one `send_xmpp_message` call: a `KeyError`
escaping (only with an incomplete configuration), a logged-and-swallowed
failure, or a delivery to the JID built from the recipient handle and the
sender domain, carrying exactly the given body. -/
lemma send_xmpp_message_shape (cfg : Config) (tr : User → TransportResult)
    (u : User) (m : String) :
    (∃ k, send_xmpp_message cfg tr u m = .error (.keyError k) ∧
      cfg.complete = false) ∨
    (∃ d, send_xmpp_message cfg tr u m = .ok (.loggedError d)) ∨
    (∃ dom, send_xmpp_message cfg tr u m
      = .ok (.delivered ⟨u.username, dom⟩ m)) := by
  obtain ⟨o1, o2, o3, o4, o5⟩ := cfg
  rcases o1 with _ | v1
  · exact Or.inl ⟨"xmpp_host", rfl, rfl⟩
  rcases o2 with _ | v2
  · exact Or.inl ⟨"xmpp_port", rfl, rfl⟩
  rcases o3 with _ | v3
  · exact Or.inl ⟨"xmpp_sender_jid", rfl, rfl⟩
  rcases o4 with _ | v4
  · exact Or.inl ⟨"xmpp_sender_password", rfl, rfl⟩
  rcases o5 with _ | v5
  · exact Or.inl ⟨"xmpp_use_tls", rfl, rfl⟩
  cases hp : parseJid v3 with
  | none =>
      exact Or.inr (Or.inl ⟨"JIDError", by simp [send_xmpp_message, hp]⟩)
  | some sender =>
      cases htr : tr u with
      | success =>
          exact Or.inr (Or.inr
            ⟨sender.domain, by simp [send_xmpp_message, hp, htr]⟩)
      | failure detail =>
          exact Or.inr (Or.inl ⟨detail, by simp [send_xmpp_message, hp, htr]⟩)

/-- With a complete configuration, `send_xmpp_message` never raises. -/
lemma send_ok_of_complete (cfg : Config) (h : cfg.complete = true)
    (tr : User → TransportResult) (u : User) (m : String) :
    ∃ out, send_xmpp_message cfg tr u m = .ok out := by
  rcases send_xmpp_message_shape cfg tr u m with ⟨k, _, hc⟩ | ⟨d, hd⟩ | ⟨dom, hdom⟩
  · rw [h] at hc; cases hc
  · exact ⟨_, hd⟩
  · exact ⟨_, hdom⟩

/-- A body delivered by `send_xmpp_message` is the body it was given. -/
lemma send_body_eq (cfg : Config) (tr : User → TransportResult) (u : User)
    (m : String) (out : DeliveryOutcome)
    (h : send_xmpp_message cfg tr u m = .ok out) :
    ∀ b, out.body? = some b → b = m := by
  rcases send_xmpp_message_shape cfg tr u m with ⟨k, hk, _⟩ | ⟨d, hd⟩ | ⟨dom, hdom⟩
  · rw [hk] at h; cases h
  · rw [hd] at h
    cases h
    intro b hb
    simp [DeliveryOutcome.body?] at hb
  · rw [hdom] at h
    cases h
    intro b hb
    simp only [DeliveryOutcome.body?, Option.some.injEq] at hb
    exact hb.symm

/-- When the fan-out loop completes, it attempted every recipient in
order. -/
lemma fanout_targets (cfg : Config) (tr : User → TransportResult)
    (l : List User) (m : String) (outs : List (User × DeliveryOutcome))
    (h : fanout cfg tr l m = .ok outs) : outs.map Prod.fst = l := by
  induction l generalizing outs with
  | nil =>
      simp only [fanout] at h
      cases h
      rfl
  | cons u rest ih =>
      simp only [fanout] at h
      cases hs : send_xmpp_message cfg tr u m with
      | error e => rw [hs] at h; cases h
      | ok out =>
          rw [hs] at h
          cases hf : fanout cfg tr rest m with
          | error e => rw [hf] at h; cases h
          | ok outs2 =>
              rw [hf] at h
              cases h
              simp [ih outs2 hf]

/-- With a complete configuration the fan-out loop runs to the end, one
outcome per recipient, whatever the per-recipient transport results are. -/
lemma fanout_ok_of_complete (cfg : Config) (h : cfg.complete = true)
    (tr : User → TransportResult) (l : List User) (m : String) :
    ∃ outs, fanout cfg tr l m = .ok outs ∧ outs.map Prod.fst = l := by
  induction l with
  | nil => exact ⟨[], rfl, rfl⟩
  | cons u rest ih =>
      obtain ⟨out, hout⟩ := send_ok_of_complete cfg h tr u m
      obtain ⟨outs, houts, hmap⟩ := ih
      refine ⟨(u, out) :: outs, ?_, by simp [hmap]⟩
      simp only [fanout, hout, houts]

/-- Every body the fan-out loop delivered is the single body it was
given. -/
lemma fanout_body (cfg : Config) (tr : User → TransportResult)
    (l : List User) (m : String) (outs : List (User × DeliveryOutcome))
    (h : fanout cfg tr l m = .ok outs) :
    ∀ p ∈ outs, ∀ b, (Prod.snd p).body? = some b → b = m := by
  induction l generalizing outs with
  | nil =>
      simp only [fanout] at h
      cases h
      intro p hp
      cases hp
  | cons u rest ih =>
      simp only [fanout] at h
      cases hs : send_xmpp_message cfg tr u m with
      | error e => rw [hs] at h; cases h
      | ok out =>
          rw [hs] at h
          cases hf : fanout cfg tr rest m with
          | error e => rw [hf] at h; cases h
          | ok outs2 =>
              rw [hf] at h
              cases h
              intro p hp
              rcases List.mem_cons.mp hp with rfl | hp2
              · exact send_body_eq cfg tr u m out hs
              · exact ih outs2 hf p hp2

/-- The `published` template formats to the clean single-line body. -/
lemma pyFormat_published (user : User) (r : ReviewRequest) (site : Site) :
    pyFormat published_template (message_args user r site)
      = .ok (published_message_text user r site) := by
  simp [pyFormat, published_template, message_args, published_message_text,
    Except.map, String.append_assoc]

/-- The `reopened` template formats to the clean single-line body. -/
lemma pyFormat_reopened (user : User) (r : ReviewRequest) (site : Site) :
    pyFormat reopened_template (message_args user r site)
      = .ok (reopened_message_text user r site) := by
  simp [pyFormat, reopened_template, message_args, reopened_message_text,
    Except.map, String.append_assoc]

/-- The `closed` template formats to the clean single-line body. -/
lemma pyFormat_closed (user : User) (r : ReviewRequest) (site : Site) :
    pyFormat closed_template (message_args user r site)
      = .ok (closed_message_text user r site) := by
  simp [pyFormat, closed_template, message_args, closed_message_text,
    Except.map, String.append_assoc]

/-- The `reviewed` template formats to the clean single-line body. -/
lemma pyFormat_reviewed (user : User) (r : ReviewRequest) (site : Site) :
    pyFormat reviewed_template (message_args user r site)
      = .ok (reviewed_message_text user r site) := by
  simp [pyFormat, reviewed_template, message_args, reviewed_message_text,
    Except.map, String.append_assoc]

/-- The `reply` template always raises `TypeError`: its `%%s` leaves five
conversions for six arguments. -/
lemma pyFormat_reply (user : User) (r : ReviewRequest) (site : Site) :
    pyFormat reply_template (message_args user r site) = .error .typeError := by
  simp [pyFormat, reply_template, message_args, Except.map]

/-- A public request reduces `send_review_request_published` to a fan-out
of the clean body over the actor-discarded audience. -/
lemma publish_eq_of_public (cfg : Config) (tr : User → TransportResult)
    (site : Site) (user : User) (r : ReviewRequest) (cd : String)
    (hpub : r.public = true) :
    send_review_request_published cfg tr site user r cd
      = fanout cfg tr (discardUser (get_users_review_request r) user)
          (published_message_text user r site) := by
  simp [send_review_request_published, hpub, pyFormat_published]

/-- A non-public request makes `send_review_request_published` return
immediately. -/
lemma publish_eq_of_private (cfg : Config) (tr : User → TransportResult)
    (site : Site) (user : User) (r : ReviewRequest) (cd : String)
    (hpub : r.public = false) :
    send_review_request_published cfg tr site user r cd = .ok [] := by
  simp [send_review_request_published, hpub]

/-- A public request reduces `send_review_request_reopened` to a fan-out
of the clean body over the actor-discarded audience. -/
lemma reopen_eq_of_public (cfg : Config) (tr : User → TransportResult)
    (site : Site) (user : User) (r : ReviewRequest)
    (hpub : r.public = true) :
    send_review_request_reopened cfg tr site user r
      = fanout cfg tr (discardUser (get_users_review_request r) user)
          (reopened_message_text user r site) := by
  simp [send_review_request_reopened, hpub, pyFormat_reopened]

/-- A non-public request makes `send_review_request_reopened` return
immediately. -/
lemma reopen_eq_of_private (cfg : Config) (tr : User → TransportResult)
    (site : Site) (user : User) (r : ReviewRequest)
    (hpub : r.public = false) :
    send_review_request_reopened cfg tr site user r = .ok [] := by
  simp [send_review_request_reopened, hpub]

/-- A non-discarded request reduces `send_review_request_closed` to a
fan-out of the clean body over the actor-discarded audience. -/
lemma close_eq_of_not_discarded (cfg : Config) (tr : User → TransportResult)
    (site : Site) (user : User) (r : ReviewRequest)
    (hst : r.status ≠ 'D') :
    send_review_request_closed cfg tr site user r
      = fanout cfg tr (discardUser (get_users_review_request r) user)
          (closed_message_text user r site) := by
  simp [send_review_request_closed, hst, pyFormat_closed]

/-- A discarded request makes `send_review_request_closed` return
immediately. -/
lemma close_eq_of_discarded (cfg : Config) (tr : User → TransportResult)
    (site : Site) (user : User) (r : ReviewRequest)
    (hst : r.status = 'D') :
    send_review_request_closed cfg tr site user r = .ok [] := by
  simp [send_review_request_closed, hst]

/-- A public request reduces `send_review_published` to a fan-out of the
clean body over the actor-discarded audience. -/
lemma review_eq_of_public (cfg : Config) (tr : User → TransportResult)
    (site : Site) (user : User) (rv : Review)
    (hpub : rv.review_request.public = true) :
    send_review_published cfg tr site user rv
      = fanout cfg tr
          (discardUser (get_users_review_request rv.review_request) user)
          (reviewed_message_text user rv.review_request site) := by
  simp [send_review_published, hpub, pyFormat_reviewed]

/-- A non-public request makes `send_review_published` return
immediately. -/
lemma review_eq_of_private (cfg : Config) (tr : User → TransportResult)
    (site : Site) (user : User) (rv : Review)
    (hpub : rv.review_request.public = false) :
    send_review_published cfg tr site user rv = .ok [] := by
  simp [send_review_published, hpub]

/-- A public request makes `send_reply_published` raise the template's
`TypeError`. -/
lemma reply_eq_of_public (cfg : Config) (tr : User → TransportResult)
    (site : Site) (user : User) (rp : Reply)
    (hpub : rp.base_reply_to.review_request.public = true) :
    send_reply_published cfg tr site user rp = .error .typeError := by
  simp [send_reply_published, hpub, pyFormat_reply]

/-- A non-public request makes `send_reply_published` return
immediately. -/
lemma reply_eq_of_private (cfg : Config) (tr : User → TransportResult)
    (site : Site) (user : User) (rp : Reply)
    (hpub : rp.base_reply_to.review_request.public = false) :
    send_reply_published cfg tr site user rp = .ok [] := by
  simp [send_reply_published, hpub]

/-- `send_reply_published` never dispatches: when not public it returns
the empty fan-out, and when public the `TypeError` prevents an `.ok`. -/
lemma reply_ok_inv (cfg : Config) (tr : User → TransportResult)
    (site : Site) (user : User) (rp : Reply)
    (outs : List (User × DeliveryOutcome))
    (h : send_reply_published cfg tr site user rp = .ok outs) : outs = [] := by
  cases hpub : rp.base_reply_to.review_request.public with
  | false => rw [reply_eq_of_private cfg tr site user rp hpub] at h; cases h; rfl
  | true => rw [reply_eq_of_public cfg tr site user rp hpub] at h; cases h

/-- A fold of `addUser` over members already present changes nothing. -/
lemma foldl_addUser_eq_self (l init : List User) (h : ∀ x ∈ l, x ∈ init) :
    l.foldl addUser init = init := by
  induction l with
  | nil => rfl
  | cons x xs ih =>
      rw [List.foldl_cons]
      have hx : addUser init x = init := by
        rw [addUser, if_pos (h x (List.mem_cons_self x xs))]
      rw [hx]
      exact ih (fun y hy => h y (List.mem_cons_of_mem x hy))

/-- The group fold over members already present changes nothing. -/
lemma foldl_groups_eq_self (l : List ReviewGroup) (init : List User)
    (h : ∀ g ∈ l, ∀ x ∈ g.users, x.is_active = true → x ∈ init) :
    l.foldl
      (fun s group =>
        (group.users.filter (fun v => v.is_active)).foldl addUser s) init
      = init := by
  induction l with
  | nil => rfl
  | cons g gs ih =>
      rw [List.foldl_cons]
      have hg : (g.users.filter (fun v => v.is_active)).foldl addUser init
          = init := by
        apply foldl_addUser_eq_self
        intro x hx
        rw [List.mem_filter] at hx
        exact h g (List.mem_cons_self g gs) x hx.1 hx.2
      rw [hg]
      exact ih (fun g2 hg2 => h g2 (List.mem_cons_of_mem g hg2))

/-- The `starred_by` fold over members already present changes nothing. -/
lemma foldl_starred_eq_self (l : List Profile) (init : List User)
    (h : ∀ p ∈ l, p.user.is_active = true → p.user ∈ init) :
    l.foldl
      (fun s profile =>
        if profile.user.is_active then addUser s profile.user else s) init
      = init := by
  induction l with
  | nil => rfl
  | cons p ps ih =>
      rw [List.foldl_cons]
      have hp : (if p.user.is_active then addUser init p.user else init)
          = init := by
        by_cases hact : p.user.is_active = true
        · rw [if_pos hact, addUser,
            if_pos (h p (List.mem_cons_self p ps) hact)]
        · rw [if_neg hact]
      rw [hp]
      exact ih (fun q hq => h q (List.mem_cons_of_mem p hq))

/-- Running the resolution again starting from an already-resolved set
changes nothing. -/
lemma resolveFromList_eq_self (init : List User) (r : ReviewRequest)
    (h1 : ∀ x ∈ r.participants, x ∈ init)
    (h2 : r.submitter.is_active = true → r.submitter ∈ init)
    (h3 : ∀ x ∈ r.target_people, x.is_active = true → x ∈ init)
    (h4 : ∀ g ∈ r.target_groups, ∀ x ∈ g.users, x.is_active = true → x ∈ init)
    (h5 : ∀ p ∈ r.starred_by, p.user.is_active = true → p.user ∈ init) :
    resolveFromList init r = init := by
  simp only [resolveFromList]
  rw [foldl_addUser_eq_self _ _ h1]
  have hsub : (if r.submitter.is_active then addUser init r.submitter
      else init) = init := by
    by_cases hact : r.submitter.is_active = true
    · rw [if_pos hact, addUser, if_pos (h2 hact)]
    · rw [if_neg hact]
  rw [hsub]
  rw [foldl_addUser_eq_self _ _ (by
    intro x hx
    rw [List.mem_filter] at hx
    exact h3 x hx.1 hx.2)]
  rw [foldl_groups_eq_self _ _ h4]
  exact foldl_starred_eq_self _ _ h5

/-- C1: the resolved audience contains exactly: every participant (no
active-status filter), the submitter iff active, the active members of
`target_people`, the active users of every group in `target_groups`, and
each `starred_by` subscription's user iff that user is active; and with
every source empty the result is the empty set. -/
theorem audience_resolution_matches_spec (r : ReviewRequest) (u : User) :
    (u ∈ get_users_review_request r ↔
      u ∈ r.participants ∨
      (u = r.submitter ∧ r.submitter.is_active = true) ∨
      (u ∈ r.target_people ∧ u.is_active = true) ∨
      (∃ g ∈ r.target_groups, u ∈ g.users ∧ u.is_active = true) ∨
      (∃ p ∈ r.starred_by, p.user = u ∧ u.is_active = true)) ∧
    (r.participants = [] → r.submitter.is_active = false →
      r.target_people = [] → r.target_groups = [] → r.starred_by = [] →
      get_users_review_request r = []) := by
  refine ⟨mem_get_users r u, ?_⟩
  intro h1 h2 h3 h4 h5
  rw [get_users_review_request]
  simp [resolveFromList, h1, h2, h3, h4, h5]

/-- C1 witness: a request with all collections empty and an inactive
submitter resolves to the empty audience. -/
theorem audience_resolution_matches_spec_witness :
    get_users_review_request rEmpty = [] :=
  (audience_resolution_matches_spec rEmpty alice).2 rfl rfl rfl rfl rfl

/-- C3 counterexample: the inactive user carol, reachable only through
`get_participants()`, appears in the resolved audience, so the audience
does contain an inactive user. -/
theorem inactive_participant_in_audience :
    carol ∈ get_users_review_request rC3 ∧ carol.is_active = false := by
  constructor
  · decide
  · rfl

/-- C3 amended: the resolved audience never contains an inactive user
except through the participants source, which is added with no
active-status filter: an inactive user that is not a participant never
appears. -/
theorem no_inactive_user_outside_participants (r : ReviewRequest) (u : User)
    (hin : u.is_active = false) (hpart : u ∉ r.participants) :
    u ∉ get_users_review_request r := by
  rw [mem_get_users]
  rintro (h | h | h | h | h)
  · exact hpart h
  · obtain ⟨he, ha⟩ := h
    subst he
    rw [hin] at ha
    cases ha
  · rw [hin] at h
    cases h.2
  · obtain ⟨g, _, _, ha⟩ := h
    rw [hin] at ha
    cases ha
  · obtain ⟨p, _, _, ha⟩ := h
    rw [hin] at ha
    cases ha

/-- C3 amended witness: inactive carol is not in the audience of a request
in which she is not a participant. -/
theorem no_inactive_user_outside_participants_witness :
    carol ∉ get_users_review_request rPub :=
  no_inactive_user_outside_participants rPub carol rfl (by decide)

/-- C9: permuting the iteration order of participants, target_people,
target_groups (and their member lists) and starred_by leaves the resolved
set unchanged, and resolving again on top of an already-resolved set
returns the same set. -/
theorem audience_resolution_order_independent (r r2 : ReviewRequest)
    (hpart : r.participants.Perm r2.participants)
    (hsub : r.submitter = r2.submitter)
    (htp : r.target_people.Perm r2.target_people)
    (htg : (r.target_groups.map (fun g => (g.users : Multiset User))).Perm
      (r2.target_groups.map (fun g => (g.users : Multiset User))))
    (hsb : r.starred_by.Perm r2.starred_by) :
    (get_users_review_request r).toFinset
      = (get_users_review_request r2).toFinset ∧
    resolveFromList (get_users_review_request r) r
      = get_users_review_request r := by
  constructor
  · ext u
    rw [List.mem_toFinset, List.mem_toFinset, mem_get_users, mem_get_users,
      hsub]
    have hgroups : (∃ g ∈ r.target_groups, u ∈ g.users ∧ u.is_active = true)
        ↔ (∃ g ∈ r2.target_groups, u ∈ g.users ∧ u.is_active = true) := by
      constructor
      · rintro ⟨g, hg, hu, ha⟩
        have hmem : ((g.users : Multiset User))
            ∈ r2.target_groups.map (fun g => (g.users : Multiset User)) :=
          htg.mem_iff.mp (List.mem_map_of_mem _ hg)
        obtain ⟨g2, hg2, hgg⟩ := List.mem_map.mp hmem
        have hgg2 : (g2.users : Multiset User) = (g.users : Multiset User) :=
          hgg
        refine ⟨g2, hg2, ?_, ha⟩
        rw [← Multiset.mem_coe, hgg2, Multiset.mem_coe]
        exact hu
      · rintro ⟨g, hg, hu, ha⟩
        have hmem : ((g.users : Multiset User))
            ∈ r.target_groups.map (fun g => (g.users : Multiset User)) :=
          htg.symm.mem_iff.mp (List.mem_map_of_mem _ hg)
        obtain ⟨g2, hg2, hgg⟩ := List.mem_map.mp hmem
        have hgg2 : (g2.users : Multiset User) = (g.users : Multiset User) :=
          hgg
        refine ⟨g2, hg2, ?_, ha⟩
        rw [← Multiset.mem_coe, hgg2, Multiset.mem_coe]
        exact hu
    have hstar : (∃ p ∈ r.starred_by, p.user = u ∧ u.is_active = true) ↔
        (∃ p ∈ r2.starred_by, p.user = u ∧ u.is_active = true) := by
      constructor
      · rintro ⟨p, hp, h⟩
        exact ⟨p, hsb.mem_iff.mp hp, h⟩
      · rintro ⟨p, hp, h⟩
        exact ⟨p, hsb.mem_iff.mpr hp, h⟩
    rw [hgroups, hstar]
    simp only [hpart.mem_iff, htp.mem_iff]
  · apply resolveFromList_eq_self
    · intro x hx
      exact (mem_get_users r x).mpr (Or.inl hx)
    · intro ha
      exact (mem_get_users r _).mpr (Or.inr (Or.inl ⟨rfl, ha⟩))
    · intro x hx hax
      exact (mem_get_users r x).mpr (Or.inr (Or.inr (Or.inl ⟨hx, hax⟩)))
    · intro g hg x hx hax
      exact (mem_get_users r x).mpr
        (Or.inr (Or.inr (Or.inr (Or.inl ⟨g, hg, hx, hax⟩))))
    · intro p hp hap
      exact (mem_get_users r _).mpr
        (Or.inr (Or.inr (Or.inr (Or.inr ⟨p, hp, rfl, hap⟩))))

/-- C9 witness: two concretely permuted requests resolve to the same set,
and re-resolving on top of the result is the identity. -/
theorem audience_resolution_order_independent_witness :
    (get_users_review_request rPermA).toFinset
      = (get_users_review_request rPermB).toFinset ∧
    resolveFromList (get_users_review_request rPermA) rPermA
      = get_users_review_request rPermA :=
  audience_resolution_order_independent rPermA rPermB (by decide) rfl
    (by decide) (by decide) (by decide)

/-- The actor is never a member of the discarded audience. -/
lemma not_mem_discard_self (l : List User) (u : User) :
    u ∉ discardUser l u := by
  rw [mem_discardUser]
  rintro ⟨_, hne⟩
  exact hne rfl

/-- C2 counterexample: with `xmpp_host` missing from the extension
settings, the publish entry point raises `KeyError` into the event-hook
caller instead of absorbing the failure (the settings reads sit outside
the `try` block). -/
theorem publish_raises_keyError_on_missing_host :
    send_review_request_published cfgNoHost trOk site0 alice rPub ""
      = .error (.keyError "xmpp_host") := by
  rfl

/-- C2 amended: with all five connection parameters present, the publish,
reopen, close and review entry points return normally for every actor,
request and transport behavior (all send-path failures are absorbed and
logged); the reply entry point returns normally when its request is not
public. -/
theorem entry_points_return_normally_when_configured (cfg : Config)
    (tr : User → TransportResult) (site : Site) (user : User)
    (r : ReviewRequest) (rv : Review) (rp : Reply) (cd : String)
    (hcfg : cfg.complete = true)
    (hrp : rp.base_reply_to.review_request.public = false) :
    (∃ outs, send_review_request_published cfg tr site user r cd
      = .ok outs) ∧
    (∃ outs, send_review_request_reopened cfg tr site user r = .ok outs) ∧
    (∃ outs, send_review_request_closed cfg tr site user r = .ok outs) ∧
    (∃ outs, send_review_published cfg tr site user rv = .ok outs) ∧
    (∃ outs, send_reply_published cfg tr site user rp = .ok outs) := by
  refine ⟨?_, ?_, ?_, ?_,
    ⟨[], reply_eq_of_private cfg tr site user rp hrp⟩⟩
  · cases hpub : r.public with
    | false => exact ⟨[], publish_eq_of_private cfg tr site user r cd hpub⟩
    | true =>
        obtain ⟨outs, houts, _⟩ := fanout_ok_of_complete cfg hcfg tr
          (discardUser (get_users_review_request r) user)
          (published_message_text user r site)
        refine ⟨outs, ?_⟩
        rw [publish_eq_of_public cfg tr site user r cd hpub]
        exact houts
  · cases hpub : r.public with
    | false => exact ⟨[], reopen_eq_of_private cfg tr site user r hpub⟩
    | true =>
        obtain ⟨outs, houts, _⟩ := fanout_ok_of_complete cfg hcfg tr
          (discardUser (get_users_review_request r) user)
          (reopened_message_text user r site)
        refine ⟨outs, ?_⟩
        rw [reopen_eq_of_public cfg tr site user r hpub]
        exact houts
  · by_cases hst : r.status = 'D'
    · exact ⟨[], close_eq_of_discarded cfg tr site user r hst⟩
    · obtain ⟨outs, houts, _⟩ := fanout_ok_of_complete cfg hcfg tr
        (discardUser (get_users_review_request r) user)
        (closed_message_text user r site)
      refine ⟨outs, ?_⟩
      rw [close_eq_of_not_discarded cfg tr site user r hst]
      exact houts
  · cases hpub : rv.review_request.public with
    | false => exact ⟨[], review_eq_of_private cfg tr site user rv hpub⟩
    | true =>
        obtain ⟨outs, houts, _⟩ := fanout_ok_of_complete cfg hcfg tr
          (discardUser (get_users_review_request rv.review_request) user)
          (reviewed_message_text user rv.review_request site)
        refine ⟨outs, ?_⟩
        rw [review_eq_of_public cfg tr site user rv hpub]
        exact houts

/-- C2 amended witness at a fully populated configuration. -/
theorem entry_points_return_normally_when_configured_witness :
    (∃ outs, send_review_request_published cfgFull trOk site0 alice rPub ""
      = .ok outs) ∧
    (∃ outs, send_review_request_reopened cfgFull trOk site0 alice rPub
      = .ok outs) ∧
    (∃ outs, send_review_request_closed cfgFull trOk site0 alice rPub
      = .ok outs) ∧
    (∃ outs, send_review_published cfgFull trOk site0 alice rvPriv
      = .ok outs) ∧
    (∃ outs, send_reply_published cfgFull trOk site0 alice rpPriv
      = .ok outs) :=
  entry_points_return_normally_when_configured cfgFull trOk site0 alice rPub
    rvPriv rpPriv "" rfl rfl

/-- C4: the four public-gated entry points dispatch nothing on a
non-public request; close dispatches nothing on a discarded request, and
for any other status proceeds to audience resolution and dispatch. -/
theorem suppression_gates (cfg : Config) (tr : User → TransportResult)
    (site : Site) (user : User) (r : ReviewRequest) (rv : Review)
    (rp : Reply) (cd : String) :
    (r.public = false →
      send_review_request_published cfg tr site user r cd = .ok []) ∧
    (r.public = false →
      send_review_request_reopened cfg tr site user r = .ok []) ∧
    (rv.review_request.public = false →
      send_review_published cfg tr site user rv = .ok []) ∧
    (rp.base_reply_to.review_request.public = false →
      send_reply_published cfg tr site user rp = .ok []) ∧
    (r.status = 'D' → send_review_request_closed cfg tr site user r
      = .ok []) ∧
    (r.status ≠ 'D' → cfg.complete = true →
      ∃ outs, send_review_request_closed cfg tr site user r = .ok outs ∧
        outs.map Prod.fst = discardUser (get_users_review_request r) user)
    := by
  refine ⟨publish_eq_of_private cfg tr site user r cd,
    reopen_eq_of_private cfg tr site user r,
    review_eq_of_private cfg tr site user rv,
    reply_eq_of_private cfg tr site user rp,
    close_eq_of_discarded cfg tr site user r, ?_⟩
  intro hst hcfg
  obtain ⟨outs, houts, hmap⟩ := fanout_ok_of_complete cfg hcfg tr
    (discardUser (get_users_review_request r) user)
    (closed_message_text user r site)
  refine ⟨outs, ?_, hmap⟩
  rw [close_eq_of_not_discarded cfg tr site user r hst]
  exact houts

/-- C4 witness: close on a discarded request dispatches nothing. -/
theorem suppression_gates_witness :
    send_review_request_closed cfgFull trOk site0 alice rDisc = .ok [] :=
  (suppression_gates cfgFull trOk site0 alice rDisc rvPriv rpPriv
    "").2.2.2.2.1 rfl

/-- C5: the acting user is never a dispatch target of any of the five
entry points, even when present in every source collection; and the
removal is idempotent and a no-op when the actor is absent. -/
theorem actor_never_dispatch_target (cfg : Config)
    (tr : User → TransportResult) (site : Site) (user : User)
    (r : ReviewRequest) (rv : Review) (rp : Reply) (cd : String) :
    (∀ outs, send_review_request_published cfg tr site user r cd = .ok outs →
      user ∉ outs.map Prod.fst) ∧
    (∀ outs, send_review_request_reopened cfg tr site user r = .ok outs →
      user ∉ outs.map Prod.fst) ∧
    (∀ outs, send_review_request_closed cfg tr site user r = .ok outs →
      user ∉ outs.map Prod.fst) ∧
    (∀ outs, send_review_published cfg tr site user rv = .ok outs →
      user ∉ outs.map Prod.fst) ∧
    (∀ outs, send_reply_published cfg tr site user rp = .ok outs →
      user ∉ outs.map Prod.fst) ∧
    (user ∉ get_users_review_request r →
      discardUser (get_users_review_request r) user
        = get_users_review_request r) ∧
    discardUser (discardUser (get_users_review_request r) user) user
      = discardUser (get_users_review_request r) user := by
  refine ⟨?_, ?_, ?_, ?_, ?_,
    discardUser_of_not_mem (get_users_review_request r) user,
    discardUser_idem (get_users_review_request r) user⟩
  · intro outs h
    cases hpub : r.public with
    | false =>
        rw [publish_eq_of_private cfg tr site user r cd hpub] at h
        cases h
        simp
    | true =>
        rw [publish_eq_of_public cfg tr site user r cd hpub] at h
        rw [fanout_targets cfg tr _ _ outs h]
        exact not_mem_discard_self _ user
  · intro outs h
    cases hpub : r.public with
    | false =>
        rw [reopen_eq_of_private cfg tr site user r hpub] at h
        cases h
        simp
    | true =>
        rw [reopen_eq_of_public cfg tr site user r hpub] at h
        rw [fanout_targets cfg tr _ _ outs h]
        exact not_mem_discard_self _ user
  · intro outs h
    by_cases hst : r.status = 'D'
    · rw [close_eq_of_discarded cfg tr site user r hst] at h
      cases h
      simp
    · rw [close_eq_of_not_discarded cfg tr site user r hst] at h
      rw [fanout_targets cfg tr _ _ outs h]
      exact not_mem_discard_self _ user
  · intro outs h
    cases hpub : rv.review_request.public with
    | false =>
        rw [review_eq_of_private cfg tr site user rv hpub] at h
        cases h
        simp
    | true =>
        rw [review_eq_of_public cfg tr site user rv hpub] at h
        rw [fanout_targets cfg tr _ _ outs h]
        exact not_mem_discard_self _ user
  · intro outs h
    rw [reply_ok_inv cfg tr site user rp outs h]
    simp

/-- C5 witness: alice (the actor) is not among the concrete dispatch
targets of a publish whose audience is exactly bob. -/
theorem actor_never_dispatch_target_witness :
    alice ∉ ([(bob, DeliveryOutcome.delivered ⟨"bob", "xmpp.example.com"⟩
        (published_message_text alice rPub site0))] :
      List (User × DeliveryOutcome)).map Prod.fst :=
  (actor_never_dispatch_target cfgFull trOk site0 alice rPub rvPriv rpPriv
    "").1 _ rfl

/-- C6: per-recipient delivery failures are isolated: with the connection
parameters present, whatever each recipient's transport does (including an
authentication failure), the fan-out loop reaches every recipient and
produces one outcome per recipient, in order. -/
theorem per_recipient_failures_isolated (cfg : Config)
    (tr : User → TransportResult) (recipients : List User) (m : String)
    (hcfg : cfg.complete = true) :
    ∃ outs, fanout cfg tr recipients m = .ok outs ∧
      outs.map Prod.fst = recipients :=
  fanout_ok_of_complete cfg hcfg tr recipients m

/-- C6 witness: bob's authentication failure does not stop alice's
dispatch from being executed right after. -/
theorem per_recipient_failures_isolated_witness :
    ∃ outs, fanout cfgFull trFailBob [bob, alice] "hello" = .ok outs ∧
      outs.map Prod.fst = [bob, alice] :=
  per_recipient_failures_isolated cfgFull trFailBob [bob, alice] "hello" rfl

/-- C7: the publish, reopen, close and review templates each format to the
clean single-line body (actor name, verb phrase, display id, summary,
newline, base URL + absolute URL); the reply template instead raises
`TypeError` — its `%%s` artifact leaves six arguments for five
conversions — so `send_reply_published` raises instead of producing a
message. -/
theorem message_template_formatting (user : User) (r : ReviewRequest)
    (site : Site) :
    (pyFormat published_template (message_args user r site)
      = .ok (published_message_text user r site)) ∧
    (pyFormat reopened_template (message_args user r site)
      = .ok (reopened_message_text user r site)) ∧
    (pyFormat closed_template (message_args user r site)
      = .ok (closed_message_text user r site)) ∧
    (pyFormat reviewed_template (message_args user r site)
      = .ok (reviewed_message_text user r site)) ∧
    (pyFormat reply_template (message_args user r site)
      = .error .typeError) ∧
    (send_reply_published cfgFull trOk site0 alice rpPub
      = .error .typeError) :=
  ⟨pyFormat_published user r site, pyFormat_reopened user r site,
   pyFormat_closed user r site, pyFormat_reviewed user r site,
   pyFormat_reply user r site,
   reply_eq_of_public cfgFull trOk site0 alice rpPub rfl⟩

/-- C8: on successful authorization the per-session handler emits exactly
one message — addressed to the JID formed from the recipient's local part
and the sender JID's domain, with the given body — and then requests
disconnection; on the disconnected event the local event loop terminates,
ignoring anything after it. -/
theorem dispatcher_protocol_state_machine (receiver : User) (sender : JID)
    (body : String) (rest : List StreamEvent) :
    (XmppHandler.step ⟨⟨receiver.username, sender.domain⟩, body⟩ .authorized
      = ([.sendMessage ⟨receiver.username, sender.domain⟩ body,
          .disconnect], .continueLoop)) ∧
    (XmppHandler.step ⟨⟨receiver.username, sender.domain⟩, body⟩
        .disconnected = ([], .quitLoop)) ∧
    runHandler ⟨⟨receiver.username, sender.domain⟩, body⟩
        (.authorized :: .disconnected :: rest)
      = [.sendMessage ⟨receiver.username, sender.domain⟩ body,
         .disconnect] :=
  ⟨rfl, rfl, rfl⟩

/-- C10: within one invocation, every recipient that is dispatched to
receives the identical body, determined by the actor, the request and the
site alone — never by the recipient; the reply entry point dispatches to
nobody at all. -/
theorem message_body_uniform (cfg : Config) (tr : User → TransportResult)
    (site : Site) (user : User) (r : ReviewRequest) (rv : Review)
    (rp : Reply) (cd : String) :
    (∀ outs, send_review_request_published cfg tr site user r cd = .ok outs →
      ∀ p ∈ outs, ∀ b, (Prod.snd p).body? = some b →
        b = published_message_text user r site) ∧
    (∀ outs, send_review_request_reopened cfg tr site user r = .ok outs →
      ∀ p ∈ outs, ∀ b, (Prod.snd p).body? = some b →
        b = reopened_message_text user r site) ∧
    (∀ outs, send_review_request_closed cfg tr site user r = .ok outs →
      ∀ p ∈ outs, ∀ b, (Prod.snd p).body? = some b →
        b = closed_message_text user r site) ∧
    (∀ outs, send_review_published cfg tr site user rv = .ok outs →
      ∀ p ∈ outs, ∀ b, (Prod.snd p).body? = some b →
        b = reviewed_message_text user rv.review_request site) ∧
    (∀ outs, send_reply_published cfg tr site user rp = .ok outs →
      outs = []) := by
  refine ⟨?_, ?_, ?_, ?_, reply_ok_inv cfg tr site user rp⟩
  · intro outs h
    cases hpub : r.public with
    | false =>
        rw [publish_eq_of_private cfg tr site user r cd hpub] at h
        cases h
        intro p hp
        cases hp
    | true =>
        rw [publish_eq_of_public cfg tr site user r cd hpub] at h
        exact fanout_body cfg tr _ _ outs h
  · intro outs h
    cases hpub : r.public with
    | false =>
        rw [reopen_eq_of_private cfg tr site user r hpub] at h
        cases h
        intro p hp
        cases hp
    | true =>
        rw [reopen_eq_of_public cfg tr site user r hpub] at h
        exact fanout_body cfg tr _ _ outs h
  · intro outs h
    by_cases hst : r.status = 'D'
    · rw [close_eq_of_discarded cfg tr site user r hst] at h
      cases h
      intro p hp
      cases hp
    · rw [close_eq_of_not_discarded cfg tr site user r hst] at h
      exact fanout_body cfg tr _ _ outs h
  · intro outs h
    cases hpub : rv.review_request.public with
    | false =>
        rw [review_eq_of_private cfg tr site user rv hpub] at h
        cases h
        intro p hp
        cases hp
    | true =>
        rw [review_eq_of_public cfg tr site user rv hpub] at h
        exact fanout_body cfg tr _ _ outs h

/-- C10 witness: the concrete body bob receives is exactly the text
computed from the actor alice, the request and the site. -/
theorem message_body_uniform_witness :
    ("Alice Smith published review request #42: \"Fix the crash\"\nhttps://reviews.example.com/r/42/" : String)
      = published_message_text alice rPub site0 :=
  (message_body_uniform cfgFull trOk site0 alice rPub rvPriv rpPriv "").1
    [(bob, .delivered ⟨"bob", "xmpp.example.com"⟩
        (published_message_text alice rPub site0))]
    rfl
    (bob, .delivered ⟨"bob", "xmpp.example.com"⟩
        (published_message_text alice rPub site0))
    (by simp)
    "Alice Smith published review request #42: \"Fix the crash\"\nhttps://reviews.example.com/r/42/"
    rfl
